import Mathlib

/-!
Shallow embedding of `src/sort_vegan_restaurants.py`: the per-item parser
that turns a scraped multi-line text block into a flat restaurant record,
the driver loop over the input items, and the JSON serialization of the
collected records.  Python regular-expression matching is embedded by
faithful backtracking functions specialised to the three patterns the
script uses.  `float` values are embedded as exact rationals (every rating
literal in play, e.g. `4.5`, is exactly representable).
-/

namespace SortVegan

/-- Python `\s` on ASCII text: the whitespace characters `str.strip` and
the `\s` class recognise. -/
def isSpaceChar (c : Char) : Bool :=
  c = ' ' || c = '\t' || c = '\n' || c = '\r' || c = '\x0b' || c = '\x0c'

/-- `[A-Z]` character class. -/
def isUpperAZ (c : Char) : Bool := 'A' ≤ c && c ≤ 'Z'

/-- The character class `[A-Za-z0-9\-\/ ]` of the cuisines segment. -/
def isCClass (c : Char) : Bool :=
  ('A' ≤ c && c ≤ 'Z') || ('a' ≤ c && c ≤ 'z') || c.isDigit ||
  c = '-' || c = '/' || c = ' '

/-- Split a character list on a separator character (Python `str.split(sep)`
semantics: keeps empty chunks). -/
def splitOnChar (sep : Char) : List Char → List Char → List (List Char)
  | [], acc => [acc.reverse]
  | c :: rest, acc =>
    if c = sep then acc.reverse :: splitOnChar sep rest []
    else splitOnChar sep rest (c :: acc)

/-- Python `str.strip()` on a character list. -/
def pyStrip (l : List Char) : List Char :=
  ((l.dropWhile isSpaceChar).reverse.dropWhile isSpaceChar).reverse

/-- Python `str.strip()` on a string. -/
def pyStripS (s : String) : String := String.mk (pyStrip s.data)

/-- Line segmentation of the raw item text
(`[line.strip() for line in item["name"].split('\n') if line.strip()]`). -/
def segment_lines (name : String) : List String :=
  (((splitOnChar '\n' name.data []).map (fun l => String.mk (pyStrip l))).filter
    (fun s => s ≠ ""))

/-- Digit list to natural number (Python `int` on a digit string). -/
def digitsToNat (ds : List Char) : Nat :=
  ds.foldl (fun a c => 10 * a + (c.toNat - 48)) 0

/-- Exact value of the decimal literal `d1.d2` (Python `float` on the
matched rating text; the ratings in play are exactly representable). -/
def ratVal (d1 d2 : List Char) : ℚ :=
  mkRat (digitsToNat d1 * 10 ^ d2.length + digitsToNat d2) (10 ^ d2.length)

/-- `re.match(r'(\d+\.\d+)\s+\((\d+)\)', s)`: prefix match of the rating
line; on success returns (rating, number of reviews).  Greedy runs suffice
because each quantified class is disjoint from the character that follows
it, so Python's backtracking never shortens a run. -/
def rating_reviews_match (s : String) : Option (ℚ × Nat) :=
  let cs := s.data
  let d1 := cs.takeWhile Char.isDigit
  if d1.isEmpty then none else
  match cs.dropWhile Char.isDigit with
  | '.' :: r2 =>
    let d2 := r2.takeWhile Char.isDigit
    if d2.isEmpty then none else
    let r3 := r2.dropWhile Char.isDigit
    let w := r3.takeWhile isSpaceChar
    if w.isEmpty then none else
    match r3.dropWhile isSpaceChar with
    | '(' :: r5 =>
      let d3 := r5.takeWhile Char.isDigit
      if d3.isEmpty then none else
      match r5.dropWhile Char.isDigit with
      | ')' :: _ => some (ratVal d1 d2, digitsToNat d3)
      | _ => none
    | _ => none
  | _ => none

/-- `re.match(r'\+\d{1,3}-\d+', s)`: does `s` start with a phone number?
The greedy `\d{1,3}` can only hand over to `-` at the end of the full digit
run, so the match succeeds iff the run has length 1..3 and is followed by
`-` and at least one digit. -/
def phone_match (s : String) : Bool :=
  match s.data with
  | '+' :: rest =>
    let p := rest.takeWhile Char.isDigit
    (decide (1 ≤ p.length)) && (decide (p.length ≤ 3)) &&
    (match rest.dropWhile Char.isDigit with
     | '-' :: r2 => !(r2.takeWhile Char.isDigit).isEmpty
     | _ => false)
  | _ => false

/-- Does `pat` occur as a contiguous substring of `s` (Python `pat in s`)? -/
def startsWithL : List Char → List Char → Bool
  | _, [] => true
  | [], _ :: _ => false
  | c :: cs, p :: ps => c = p && startsWithL cs ps

/-- Substring containment test used for the `"Read Reviews"` anchor. -/
def containsSub : List Char → List Char → Bool
  | [], pat => pat.isEmpty
  | c :: rest, pat => startsWithL (c :: rest) pat || containsSub rest pat

/-- Index of the first line containing the substring `"Read Reviews"`
(`-1` in the script is embedded as `none`). -/
def read_reviews_idx : List String → Option Nat
  | [] => none
  | l :: ls =>
    if containsSub l.data ("Read Reviews".data) then some 0
    else (read_reviews_idx ls).map (· + 1)

/-- The flat output record, mirroring the `restaurant_data` dictionary of
the script (optional fields are `None` until assigned). -/
structure Record where
  restaurant_name : Option String
  rating : Option ℚ
  num_reviews : Option Nat
  establishment_type : Option String
  status : Option String
  is_partner : Bool
  cuisines_features : List String
  description : Option String
  phone_number : Option String
  address : Option String
deriving Repr, DecidableEq

/-- The freshly initialised `restaurant_data` dictionary. -/
def initRecord : Record :=
  { restaurant_name := none, rating := none, num_reviews := none,
    establishment_type := none, status := none, is_partner := false,
    cuisines_features := [], description := none, phone_number := none,
    address := none }

/-- Restaurant name from line 0, when present. -/
def step1a (lines : List String) : Record :=
  if 1 ≤ lines.length then
    { initRecord with restaurant_name := some (lines.getD 0 "") }
  else initRecord

/-- Rating and review count from line 1, when present and matching. -/
def step1b (lines : List String) (r : Record) : Record :=
  if 2 ≤ lines.length then
    match rating_reviews_match (lines.getD 1 "") with
    | some qn => { r with rating := some qn.1, num_reviews := some qn.2 }
    | none => r
  else r

/-- Establishment type from line 2, when present. -/
def step1c (lines : List String) (r : Record) : Record :=
  if 3 ≤ lines.length then
    { r with establishment_type := some (lines.getD 2 "") }
  else r

/-- Step 1 of the script: fixed-position top fields (name, rating line,
establishment type), each read only when enough lines exist. -/
def step1 (lines : List String) : Record :=
  step1c lines (step1b lines (step1a lines))

/-- Address assignment of step 2: the line directly before the
`"Read Reviews"` anchor, when one exists. -/
def step2addr (lines : List String) (idx : Nat) (r : Record) : Record :=
  if 1 ≤ idx then { r with address := some (lines.getD (idx - 1) "") } else r

/-- Phone assignment of step 2: the line two before the anchor, kept only
when it matches the phone pattern. -/
def step2phone (lines : List String) (idx : Nat) (r : Record) : Record :=
  if 2 ≤ idx then
    if phone_match (lines.getD (idx - 2) "") then
      { r with phone_number := some (lines.getD (idx - 2) "") }
    else r
  else r

/-- Step 2 of the script: suffix fields anchored on `"Read Reviews"`;
nothing is assigned when the anchor is absent. -/
def step2 (lines : List String) (r : Record) : Record :=
  match read_reviews_idx lines with
  | none => r
  | some idx => step2phone lines idx (step2addr lines idx r)

/-- First defined value of `f` along a list: the backtracking engine tries
alternatives in priority order and keeps the first success. -/
def firstSome {α β : Type} : List α → (α → Option β) → Option β
  | [], _ => none
  | x :: xs, f =>
    match f x with
    | some b => some b
    | none => firstSome xs f

/-- Continuation `\s*([A-Z].*)` of the cuisines/description pattern: a
shorter whitespace run would leave a whitespace character where `[A-Z]` is
required, so only the maximal run can succeed; `.*` under `re.DOTALL` then
takes everything to the end of the string.  Returns the group-2 suffix. -/
def tailMatch (cs : List Char) : Option (List Char) :=
  match cs.dropWhile isSpaceChar with
  | c :: rest => if isUpperAZ c then some (c :: rest) else none
  | [] => none

/-- All ways one iteration of `(?:[A-Za-z0-9\-\/ ]+(?:,\s*)?)` can consume
input from `cs`, as the list of remaining suffixes in Python's backtracking
priority order: the greedy `+` from its maximal run down to 1, and for each,
the greedy optional comma group (with `\s*` from maximal down to empty)
before the branch that skips it. -/
def iterCandidates (cs : List Char) : List (List Char) :=
  let n := (cs.takeWhile isCClass).length
  ((List.range n).map (fun i => n - i)).flatMap (fun k =>
    match cs.drop k with
    | ',' :: rest =>
      let m := (rest.takeWhile isSpaceChar).length
      ((List.range (m + 1)).map (fun j => rest.drop (m - j))) ++ [',' :: rest]
    | after => [after])

/-- The lazy loop `(?:...)+?` followed by the tail: after each iteration the
engine first tries to exit (match the tail), then tries a further iteration,
and on failure backtracks into the iteration's own choices.  Returns the
suffix where group 1 ends together with the group-2 suffix.  Fuel decreases
strictly because every iteration consumes at least one character. -/
def outerMatch : Nat → List Char → Option (List Char × List Char)
  | 0, _ => none
  | fuel + 1, cs =>
    firstSome (iterCandidates cs) (fun c =>
      match tailMatch c with
      | some g2 => some (c, g2)
      | none => outerMatch fuel c)

/-- `re.match(r"((?:[A-Za-z0-9\-\/ ]+(?:,\s*)?)+?)\s*([A-Z].*)", s, re.DOTALL)`:
on success returns (group 1, group 2). -/
def cuisines_desc_split_match (s : String) : Option (String × String) :=
  let cs := s.data
  match outerMatch (cs.length + 1) cs with
  | some g => some (String.mk (cs.take (cs.length - g.1.length)), String.mk g.2)
  | none => none

/-- `re.search(r'[.!?]\s+[A-Z]', s)` as a Boolean: some position starts a
sentence-ending punctuation mark, at least one whitespace character, then an
upper-case letter. -/
def sentence_break_search : List Char → Bool
  | [] => false
  | c :: rest =>
    ((c = '.' || c = '!' || c = '?') &&
      (decide (1 ≤ (rest.takeWhile isSpaceChar).length)) &&
      (match rest.dropWhile isSpaceChar with
       | d :: _ => isUpperAZ d
       | [] => false))
    || sentence_break_search rest

/-- `[c.strip() for c in s.split(',') if c.strip()]`. -/
def commaSplitClean (s : String) : List String :=
  ((splitOnChar ',' s.data []).map (fun l => String.mk (pyStrip l))).filter
    (fun c => c ≠ "")

/-- `" ".join(m).strip()`, the blob the middle-block classifier splits. -/
def mkBlob (m : List String) : String := pyStripS (String.intercalate " " m)

/-- Cuisines/description split of the middle-block blob: the regex split,
then the comma/sentence fallback, then the all-description fallback. -/
def classifyTail (blob : String) (r : Record) : Record :=
  match cuisines_desc_split_match blob with
  | some g =>
    { r with cuisines_features := commaSplitClean (pyStripS g.1),
             description := some (pyStripS g.2) }
  | none =>
    if blob.data.contains ',' then
      if sentence_break_search blob.data then
        { r with description := some blob, cuisines_features := [] }
      else
        { r with cuisines_features := commaSplitClean blob, description := none }
    else
      { r with description := some blob, cuisines_features := [] }

/-- Optional `"Partner"` marker line of the middle block. -/
def classifyPartner (m1 : List String) (r : Record) : Record :=
  match m1 with
  | l :: rest =>
    if l = "Partner" then classifyTail (mkBlob rest) { r with is_partner := true }
    else classifyTail (mkBlob (l :: rest)) r
  | [] => classifyTail (mkBlob []) r

/-- The middle-block classifier (script step 3 body): optional status line,
optional partner line, then the cuisines/description split. -/
def classifyMiddle (middle : List String) (r : Record) : Record :=
  match middle with
  | l :: rest =>
    if l = "Closed" || l = "Open Now" then
      classifyPartner rest { r with status := some l }
    else classifyPartner (l :: rest) r
  | [] => classifyPartner [] r

/-- Step 3 of the script: the middle span runs from index 3 up to the
anchor index less one for an assigned phone line and one for an assigned
address line; it is classified only when `3 < end`.  When the anchor is
absent the script's end index is `-1`, so nothing is classified. -/
def step3 (lines : List String) (r : Record) : Record :=
  match read_reviews_idx lines with
  | none => r
  | some idx =>
    let e : Int := (idx : Int) - (if r.phone_number.isSome then 1 else 0)
                     - (if r.address.isSome then 1 else 0)
    if 3 < e then classifyMiddle ((lines.drop 3).take (e.toNat - 3)) r else r

/-- The whole per-item parser applied to the raw `"name"` text block. -/
def restaurant_data (name : String) : Record :=
  step3 (segment_lines name) (step2 (segment_lines name) (step1 (segment_lines name)))

/-- One driver-loop step as a function of the item alone: items without a
`"name"` field are skipped, all others produce a record. -/
def parseItem : Option String → Option Record
  | none => none
  | some name => some (restaurant_data name)

/-- The driver loop of the script with its accumulating list state: items
with a `"name"` field append their parsed record, others are skipped. -/
def processLoop : List (Option String) → List Record → List Record
  | [], acc => acc
  | none :: rest, acc => processLoop rest acc
  | some name :: rest, acc => processLoop rest (acc ++ [restaurant_data name])

/-- The collected result sequence (`parsed_restaurants` in the script). -/
def parsed_restaurants (items : List (Option String)) : List Record :=
  processLoop items []

/-- A JSON value as `json.dumps` renders the record fields. -/
inductive JVal where
  | null
  | jstr (s : String)
  | jnum (q : ℚ)
  | jint (n : Nat)
  | jbool (b : Bool)
  | jarr (xs : List String)
deriving Repr, DecidableEq

/-- An optional string field as serialized. -/
def jOptStr : Option String → JVal
  | none => JVal.null
  | some s => JVal.jstr s

/-- An optional numeric field as serialized. -/
def jOptNum : Option ℚ → JVal
  | none => JVal.null
  | some q => JVal.jnum q

/-- An optional integer field as serialized. -/
def jOptInt : Option Nat → JVal
  | none => JVal.null
  | some n => JVal.jint n

/-- The field names of a record in the dictionary's insertion order. -/
def fieldNames : List String :=
  ["restaurant_name", "rating", "num_reviews", "establishment_type",
   "status", "is_partner", "cuisines_features", "description",
   "phone_number", "address"]

/-- One serialized record: `json.dumps` emits every key of the dictionary,
null-valued or not. -/
def serializeRecord (r : Record) : List (String × JVal) :=
  [("restaurant_name", jOptStr r.restaurant_name),
   ("rating", jOptNum r.rating),
   ("num_reviews", jOptInt r.num_reviews),
   ("establishment_type", jOptStr r.establishment_type),
   ("status", jOptStr r.status),
   ("is_partner", JVal.jbool r.is_partner),
   ("cuisines_features", JVal.jarr r.cuisines_features),
   ("description", jOptStr r.description),
   ("phone_number", jOptStr r.phone_number),
   ("address", jOptStr r.address)]

/-- The serialized result set (`output_json` in the script):
`json.dumps(parsed_restaurants, ...)` serializes every record as is. -/
def output_json (rs : List Record) : List (List (String × JVal)) :=
  rs.map serializeRecord

/-- A normalized review entry. -/
structure Review where
  text : String
  rating : Option ℚ
  date : Option String
deriving Repr, DecidableEq

/-- A raw review object with its optional text/rating/date fields. -/
structure RawReviewObj where
  text : Option String
  rating : Option ℚ
  date : Option String

/-- The polymorphic raw reviews payload: absent, a list of plain strings, a
list of objects, or a single newline-delimited string. -/
inductive ReviewsPayload where
  | absent
  | strList (xs : List String)
  | objList (xs : List RawReviewObj)
  | single (s : String)

/-- Modelled from the spec: the Reviews Normalizer of spec section 4.4 has
no implementation in `src/sort_vegan_restaurants.py` (the script's record
has no reviews field at all); this follows the spec's words.  Absent or
empty payloads give an empty list; object lists read text (default empty),
rating and date; plain-string lists become text-only reviews (trimmed); a
single string is split on newlines, trimmed, empties dropped, each line a
text-only review. -/
def normalizeReviews : ReviewsPayload → List Review
  | ReviewsPayload.absent => []
  | ReviewsPayload.strList xs =>
    xs.map (fun s => { text := pyStripS s, rating := none, date := none })
  | ReviewsPayload.objList xs =>
    xs.map (fun o => { text := o.text.getD "", rating := o.rating, date := o.date })
  | ReviewsPayload.single s =>
    (((splitOnChar '\n' s.data []).map (fun l => String.mk (pyStrip l))).filter
      (fun t => t ≠ "")).map (fun t => { text := t, rating := none, date := none })

/-- The raw text block of the spec's worked example. -/
def chezVertText : String :=
  "Chez Vert\n4.5 (120)\nVegan Restaurant\nOpen Now\nPartner\nVegan, Organic Lovely spot near the river.\n+33-123456789\n12 Rue de Paris\nRead Reviews"

/-- An item with no "Read Reviews" line but with a status line at index 3. -/
def noAnchorText : String := "A\n1.0 (1)\nT\nOpen Now"

/-- An item whose middle block is exhausted by the status and partner
lines, so the joined remaining blob is empty. -/
def emptyBlobText : String := "A\n1.0 (1)\nT\nOpen Now\nPartner\nSomewhere\nRead Reviews here"

/-! Helper lemmas: which fields each stage of the parser can touch. -/

theorem step1_address (lines : List String) : (step1 lines).address = none := by
  unfold step1 step1c step1b step1a initRecord
  repeat' split
  all_goals rfl

theorem step1_phone (lines : List String) : (step1 lines).phone_number = none := by
  unfold step1 step1c step1b step1a initRecord
  repeat' split
  all_goals rfl

theorem step1_status (lines : List String) : (step1 lines).status = none := by
  unfold step1 step1c step1b step1a initRecord
  repeat' split
  all_goals rfl

theorem step1_partner (lines : List String) : (step1 lines).is_partner = false := by
  unfold step1 step1c step1b step1a initRecord
  repeat' split
  all_goals rfl

theorem step1_cuisines (lines : List String) : (step1 lines).cuisines_features = [] := by
  unfold step1 step1c step1b step1a initRecord
  repeat' split
  all_goals rfl

theorem step1_desc (lines : List String) : (step1 lines).description = none := by
  unfold step1 step1c step1b step1a initRecord
  repeat' split
  all_goals rfl

theorem step1_rating_iff (lines : List String) :
    ((step1 lines).rating).isSome = ((step1 lines).num_reviews).isSome := by
  unfold step1 step1c step1b step1a initRecord
  repeat' split
  all_goals rfl

theorem step1_name_of (lines : List String) (h : 1 ≤ lines.length) :
    (step1 lines).restaurant_name = some (lines.getD 0 "") := by
  unfold step1 step1c step1b step1a initRecord
  repeat' split
  all_goals rfl

theorem step2addr_keeps (lines : List String) (idx : Nat) (r : Record) :
    (step2addr lines idx r).restaurant_name = r.restaurant_name ∧
    (step2addr lines idx r).rating = r.rating ∧
    (step2addr lines idx r).num_reviews = r.num_reviews ∧
    (step2addr lines idx r).phone_number = r.phone_number := by
  unfold step2addr
  split
  all_goals exact ⟨rfl, rfl, rfl, rfl⟩

theorem step2phone_keeps (lines : List String) (idx : Nat) (r : Record) :
    (step2phone lines idx r).restaurant_name = r.restaurant_name ∧
    (step2phone lines idx r).rating = r.rating ∧
    (step2phone lines idx r).num_reviews = r.num_reviews ∧
    (step2phone lines idx r).address = r.address := by
  unfold step2phone
  repeat' split
  all_goals exact ⟨rfl, rfl, rfl, rfl⟩

theorem step2_keeps (lines : List String) (r : Record) :
    (step2 lines r).restaurant_name = r.restaurant_name ∧
    (step2 lines r).rating = r.rating ∧
    (step2 lines r).num_reviews = r.num_reviews := by
  unfold step2
  cases read_reviews_idx lines with
  | none => exact ⟨rfl, rfl, rfl⟩
  | some idx =>
    obtain ⟨h1, h2, h3, _⟩ := step2addr_keeps lines idx r
    obtain ⟨g1, g2, g3, _⟩ := step2phone_keeps lines idx (step2addr lines idx r)
    exact ⟨g1.trans h1, g2.trans h2, g3.trans h3⟩

theorem classifyTail_keeps (blob : String) (r : Record) :
    (classifyTail blob r).rating = r.rating ∧
    (classifyTail blob r).num_reviews = r.num_reviews := by
  unfold classifyTail
  repeat' split
  all_goals exact ⟨rfl, rfl⟩

theorem classifyPartner_keeps (m1 : List String) (r : Record) :
    (classifyPartner m1 r).rating = r.rating ∧
    (classifyPartner m1 r).num_reviews = r.num_reviews := by
  unfold classifyPartner
  repeat' split
  all_goals exact classifyTail_keeps _ _

theorem classifyMiddle_keeps (middle : List String) (r : Record) :
    (classifyMiddle middle r).rating = r.rating ∧
    (classifyMiddle middle r).num_reviews = r.num_reviews := by
  unfold classifyMiddle
  repeat' split
  all_goals exact classifyPartner_keeps _ _

theorem step3_keeps (lines : List String) (r : Record) :
    (step3 lines r).rating = r.rating ∧
    (step3 lines r).num_reviews = r.num_reviews := by
  unfold step3
  cases read_reviews_idx lines with
  | none => exact ⟨rfl, rfl⟩
  | some idx =>
    simp only []
    repeat' split
    all_goals first
      | exact classifyMiddle_keeps _ _
      | exact ⟨rfl, rfl⟩

theorem read_reviews_idx_lt (ls : List String) (i : Nat)
    (h : read_reviews_idx ls = some i) : i < ls.length := by
  induction ls generalizing i with
  | nil => simp [read_reviews_idx] at h
  | cons l rest ih =>
    unfold read_reviews_idx at h
    split at h
    · cases h
      simp
    · cases hr : read_reviews_idx rest with
      | none => rw [hr] at h; simp at h
      | some j =>
        rw [hr] at h
        simp at h
        have := ih j hr
        simp [List.length_cons]
        omega

theorem processLoop_eq (items : List (Option String)) (acc : List Record) :
    processLoop items acc = acc ++ items.filterMap parseItem := by
  induction items generalizing acc with
  | nil => simp [processLoop]
  | cons it rest ih =>
    cases it with
    | none => simp [processLoop, parseItem, ih]
    | some name => simp [processLoop, parseItem, ih]

/-! Claim theorems. -/

/-- C1 counterexample: on the spec's worked example the lazy regex split
hands the capitalised second tag to the description, so the parser does not
produce cuisines ["Vegan", "Organic"] with description "Lovely spot near
the river.". -/
theorem c1_counterexample :
    ¬ ((restaurant_data chezVertText).cuisines_features = ["Vegan", "Organic"] ∧
       (restaurant_data chezVertText).description = some "Lovely spot near the river.") := by
  decide

/-- C1 amended: on the worked example the parser produces the claimed
prefix, status, partner and suffix fields, but cuisines ["Vegan"] and
description "Organic Lovely spot near the river.". -/
theorem c1_amended_chez_vert_parse :
    restaurant_data chezVertText =
      { restaurant_name := some "Chez Vert", rating := some (mkRat 9 2),
        num_reviews := some 120, establishment_type := some "Vegan Restaurant",
        status := some "Open Now", is_partner := true,
        cuisines_features := ["Vegan"],
        description := some "Organic Lovely spot near the river.",
        phone_number := some "+33-123456789",
        address := some "12 Rue de Paris" } := by
  decide

/-- C2 counterexample: with no "Read Reviews" line the code leaves status
unset, although the middle-block classifier applied to the span from index
3 to the end of the lines would have set it. -/
theorem c2_counterexample :
    (restaurant_data noAnchorText).status = none ∧
    (classifyMiddle ((segment_lines noAnchorText).drop 3)
        (step2 (segment_lines noAnchorText) (step1 (segment_lines noAnchorText)))).status =
      some "Open Now" := by
  decide

/-- C2 amended: with no "Read Reviews" line, address and phone_number are
left unset and the middle-block classifier is not applied at all (the end
index is -1, so the record keeps only the prefix fields). -/
theorem c2_amended_no_anchor (name : String)
    (h : read_reviews_idx (segment_lines name) = none) :
    restaurant_data name = step1 (segment_lines name) ∧
    (restaurant_data name).address = none ∧
    (restaurant_data name).phone_number = none ∧
    (restaurant_data name).status = none ∧
    (restaurant_data name).is_partner = false ∧
    (restaurant_data name).cuisines_features = [] ∧
    (restaurant_data name).description = none := by
  have hrd : restaurant_data name = step1 (segment_lines name) := by
    unfold restaurant_data step3 step2
    rw [h]
  refine ⟨hrd, ?_, ?_, ?_, ?_, ?_, ?_⟩ <;> rw [hrd]
  exacts [step1_address _, step1_phone _, step1_status _, step1_partner _,
    step1_cuisines _, step1_desc _]

/-- C2 witness: a concrete anchor-free item. -/
theorem c2_amended_no_anchor_witness :
    restaurant_data noAnchorText = step1 (segment_lines noAnchorText) ∧
    (restaurant_data noAnchorText).address = none ∧
    (restaurant_data noAnchorText).phone_number = none ∧
    (restaurant_data noAnchorText).status = none ∧
    (restaurant_data noAnchorText).is_partner = false ∧
    (restaurant_data noAnchorText).cuisines_features = [] ∧
    (restaurant_data noAnchorText).description = none :=
  c2_amended_no_anchor noAnchorText (by decide)

/-- C3 counterexample: an item whose "name" text has no non-empty line is
not skipped; the all-defaults record is appended to the output. -/
theorem c3_counterexample :
    parsed_restaurants [some ""] ≠ [] ∧ parsed_restaurants [some ""] = [initRecord] := by
  constructor
  · decide
  · decide

/-- C3 amended: when segmentation yields no non-empty line, the parser does
not fail; it produces the all-defaults record, which does appear in the
output sequence. -/
theorem c3_amended_empty_lines (name : String) (h : segment_lines name = []) :
    restaurant_data name = initRecord ∧
    parsed_restaurants [some name] = [initRecord] := by
  have hrd : restaurant_data name = initRecord := by
    unfold restaurant_data
    rw [h]
    decide
  exact ⟨hrd, by simp [parsed_restaurants, processLoop, hrd]⟩

/-- C3 witness: the empty text block. -/
theorem c3_amended_empty_lines_witness :
    restaurant_data "" = initRecord ∧ parsed_restaurants [some ""] = [initRecord] :=
  c3_amended_empty_lines "" (by decide)

/-- C4 counterexample: in the singleton result set whose only record has a
null rating, the rating field is still present (as null) in the serialized
record, so the all-null field is not absent. -/
theorem c4_counterexample :
    initRecord.rating = none ∧
    List.lookup "rating" (serializeRecord initRecord) = some JVal.null ∧
    List.lookup "rating" (serializeRecord initRecord) ≠ none := by
  decide

/-- C4 amended: the script performs no null-pruning pass at all; every
serialized record carries all ten fields (null where absent), so the
retention half of the claim holds and the pruning half never applies. -/
theorem c4_amended_no_pruning (rs : List Record) :
    (output_json rs).map (fun sr => sr.map Prod.fst) = rs.map (fun _ => fieldNames) := by
  unfold output_json
  rw [List.map_map]
  exact List.map_congr_left (fun r _ => rfl)

/-- C5: a single-string reviews payload "Great food\nFriendly staff" is
normalized to exactly two text-only reviews. -/
theorem c5_single_string_reviews :
    normalizeReviews (ReviewsPayload.single "Great food\nFriendly staff") =
      [{ text := "Great food", rating := none, date := none },
       { text := "Friendly staff", rating := none, date := none }] := by
  decide

/-- C6 counterexample: when the middle block is exhausted by the status and
partner lines, the description is set to the empty string, not left
unset. -/
theorem c6_counterexample :
    (restaurant_data emptyBlobText).description = some "" ∧
    (restaurant_data emptyBlobText).description ≠ none ∧
    (restaurant_data emptyBlobText).cuisines_features = [] := by
  decide

/-- C6 amended: on an empty blob the classifier leaves cuisines empty but
sets the description to the empty string (the final fallback branch runs on
the empty blob instead of stopping). -/
theorem c6_amended_empty_blob (r : Record) :
    (classifyTail "" r).cuisines_features = [] ∧
    (classifyTail "" r).description = some "" := by
  unfold classifyTail
  rw [show cuisines_desc_split_match "" = none from rfl]
  rw [show ("".data.contains ',') = false from rfl]
  exact ⟨rfl, rfl⟩

/-- C7: in every output record, rating and num_reviews are set together:
rating is non-null exactly when num_reviews is. -/
theorem c7_rating_reviews_together (name : String) :
    ((restaurant_data name).rating).isSome = ((restaurant_data name).num_reviews).isSome := by
  unfold restaurant_data
  obtain ⟨-, h2, h3⟩ := step2_keeps (segment_lines name) (step1 (segment_lines name))
  obtain ⟨g2, g3⟩ :=
    step3_keeps (segment_lines name) (step2 (segment_lines name) (step1 (segment_lines name)))
  rw [g2, g3, h2, h3, step1_rating_iff]

/-- C8: the driver's output is the pointwise image of the items: each
record is a function of its own item alone (no hidden state), so re-running
the batch reproduces the records exactly. -/
theorem c8_parse_pure (items : List (Option String)) :
    parsed_restaurants items = items.filterMap parseItem ∧
    parsed_restaurants (items ++ items) =
      parsed_restaurants items ++ parsed_restaurants items := by
  have key : ∀ xs : List (Option String), parsed_restaurants xs = xs.filterMap parseItem := by
    intro xs
    unfold parsed_restaurants
    simpa using processLoop_eq xs []
  refine ⟨key items, ?_⟩
  rw [key (items ++ items), key items, List.filterMap_append]

/-- C9: when the first line containing "Read Reviews" is line 1, the
address is read from line 0, so it coincides with the restaurant name. -/
theorem c9_anchor_at_one (name : String)
    (h : read_reviews_idx (segment_lines name) = some 1) :
    (restaurant_data name).address = some ((segment_lines name).getD 0 "") ∧
    (restaurant_data name).address = (restaurant_data name).restaurant_name := by
  have hlen : 1 < (segment_lines name).length := read_reviews_idx_lt _ _ h
  have h2 : step2 (segment_lines name) (step1 (segment_lines name)) =
      { step1 (segment_lines name) with
          address := some ((segment_lines name).getD 0 "") } := by
    unfold step2
    rw [h]
    unfold step2phone step2addr
    norm_num
  have hr3 : restaurant_data name =
      { step1 (segment_lines name) with
          address := some ((segment_lines name).getD 0 "") } := by
    unfold restaurant_data
    rw [h2]
    unfold step3
    rw [h]
    simp [step1_phone]
  constructor
  · rw [hr3]
  · rw [hr3]
    show some ((segment_lines name).getD 0 "") = (step1 (segment_lines name)).restaurant_name
    rw [step1_name_of _ (le_of_lt hlen)]

/-- C9 witness: a two-line item whose second line holds the anchor. -/
theorem c9_anchor_at_one_witness :
    (restaurant_data "Chez X\nRead Reviews").address =
      some ((segment_lines "Chez X\nRead Reviews").getD 0 "") ∧
    (restaurant_data "Chez X\nRead Reviews").address =
      (restaurant_data "Chez X\nRead Reviews").restaurant_name :=
  c9_anchor_at_one "Chez X\nRead Reviews" (by decide)

theorem takeWhile_append_cons (p : Char → Bool) (l1 : List Char) (c : Char)
    (t : List Char) (h1 : ∀ x ∈ l1, p x = true) (hc : p c = false) :
    (l1 ++ c :: t).takeWhile p = l1 ∧ (l1 ++ c :: t).dropWhile p = c :: t := by
  induction l1 with
  | nil =>
    simp [List.takeWhile, List.dropWhile, hc]
  | cons a as ih =>
    have ha : p a = true := h1 a (List.mem_cons_self a as)
    obtain ⟨ih1, ih2⟩ := ih (fun x hx => h1 x (List.mem_cons_of_mem a hx))
    simp [List.takeWhile_cons, List.dropWhile_cons, ha, ih1, ih2]

theorem space_not_digit (c : Char) (h : isSpaceChar c = true) : c.isDigit = false := by
  unfold isSpaceChar at h
  simp only [Bool.or_eq_true, decide_eq_true_eq] at h
  rcases h with ((((h | h) | h) | h) | h) | h <;> subst h <;> rfl

theorem isEmpty_false_of_ne {α : Type} (l : List α) (h : l ≠ []) :
    l.isEmpty = false := by
  cases l with
  | nil => exact absurd rfl h
  | cons a as => rfl

theorem rating_match_shape (d1 d2 w d3 extra : List Char)
    (hd1 : ∀ x ∈ d1, x.isDigit = true) (hd1n : d1 ≠ [])
    (hd2 : ∀ x ∈ d2, x.isDigit = true) (hd2n : d2 ≠ [])
    (hw : ∀ x ∈ w, isSpaceChar x = true) (hwn : w ≠ [])
    (hd3 : ∀ x ∈ d3, x.isDigit = true) (hd3n : d3 ≠ []) :
    rating_reviews_match
        (String.mk (d1 ++ '.' :: (d2 ++ (w ++ '(' :: (d3 ++ ')' :: extra))))) =
      some (ratVal d1 d2, digitsToNat d3) := by
  obtain ⟨wc, wt, rfl⟩ : ∃ a t, w = a :: t := by
    cases w with
    | nil => exact absurd rfl hwn
    | cons a t => exact ⟨a, t, rfl⟩
  have hwc : isSpaceChar wc = true := hw wc (List.mem_cons_self wc wt)
  obtain ⟨t1, dr1⟩ :=
    takeWhile_append_cons Char.isDigit d1 '.'
      (d2 ++ ((wc :: wt) ++ '(' :: (d3 ++ ')' :: extra))) hd1 (by rfl)
  obtain ⟨t2, dr2⟩ :=
    takeWhile_append_cons Char.isDigit d2 wc
      (wt ++ '(' :: (d3 ++ ')' :: extra)) hd2 (space_not_digit wc hwc)
  obtain ⟨t3, dr3⟩ :=
    takeWhile_append_cons isSpaceChar (wc :: wt) '(' (d3 ++ ')' :: extra) hw (by rfl)
  obtain ⟨t4, dr4⟩ :=
    takeWhile_append_cons Char.isDigit d3 ')' extra hd3 (by rfl)
  simp only [List.cons_append] at t3 dr3
  unfold rating_reviews_match
  simp only [String.data]
  rw [t1, isEmpty_false_of_ne d1 hd1n, dr1]
  simp only [List.cons_append, List.append_assoc]
  rw [t2, isEmpty_false_of_ne d2 hd2n, dr2]
  rw [t3, dr3]
  simp only [List.isEmpty_cons]
  rw [t4, isEmpty_false_of_ne d3 hd3n, dr4]
  rfl

theorem step1c_keeps (lines : List String) (r : Record) :
    (step1c lines r).rating = r.rating ∧ (step1c lines r).num_reviews = r.num_reviews := by
  unfold step1c
  split
  all_goals exact ⟨rfl, rfl⟩

theorem step1_rating_of (lines : List String) (qn : ℚ × Nat) (h2 : 2 ≤ lines.length)
    (hm : rating_reviews_match (lines.getD 1 "") = some qn) :
    (step1 lines).rating = some qn.1 ∧ (step1 lines).num_reviews = some qn.2 := by
  unfold step1
  obtain ⟨k1, k2⟩ := step1c_keeps lines (step1b lines (step1a lines))
  rw [k1, k2]
  unfold step1b
  rw [if_pos h2, hm]
  exact ⟨rfl, rfl⟩

/-- C10: the rating pattern on line 1 is matched as a prefix, not a
full-line match: a second line of shape decimal, whitespace, parenthesized
integer, then arbitrary extra text still populates rating and
num_reviews from that prefix. -/
theorem c10_rating_matched_as_line_start (name : String) (d1 d2 w d3 extra : List Char)
    (hd1 : ∀ x ∈ d1, x.isDigit = true) (hd1n : d1 ≠ [])
    (hd2 : ∀ x ∈ d2, x.isDigit = true) (hd2n : d2 ≠ [])
    (hw : ∀ x ∈ w, isSpaceChar x = true) (hwn : w ≠ [])
    (hd3 : ∀ x ∈ d3, x.isDigit = true) (hd3n : d3 ≠ [])
    (hlen : 2 ≤ (segment_lines name).length)
    (hline : (segment_lines name).getD 1 "" =
      String.mk (d1 ++ '.' :: (d2 ++ (w ++ '(' :: (d3 ++ ')' :: extra))))) :
    (restaurant_data name).rating = some (ratVal d1 d2) ∧
    (restaurant_data name).num_reviews = some (digitsToNat d3) := by
  have hm : rating_reviews_match ((segment_lines name).getD 1 "") =
      some (ratVal d1 d2, digitsToNat d3) := by
    rw [hline]
    exact rating_match_shape d1 d2 w d3 extra hd1 hd1n hd2 hd2n hw hwn hd3 hd3n
  obtain ⟨s1, s2⟩ := step1_rating_of (segment_lines name) _ hlen hm
  unfold restaurant_data
  obtain ⟨-, h2, h3⟩ := step2_keeps (segment_lines name) (step1 (segment_lines name))
  obtain ⟨g2, g3⟩ :=
    step3_keeps (segment_lines name) (step2 (segment_lines name) (step1 (segment_lines name)))
  rw [g2, g3, h2, h3]
  exact ⟨s1, s2⟩

/-- C10 witness: a second line "4.5 (120) stars" with trailing text. -/
theorem c10_rating_matched_as_line_start_witness :
    (restaurant_data "A\n4.5 (120) stars\nT").rating = some (ratVal ['4'] ['5']) ∧
    (restaurant_data "A\n4.5 (120) stars\nT").num_reviews =
      some (digitsToNat ['1', '2', '0']) :=
  c10_rating_matched_as_line_start "A\n4.5 (120) stars\nT"
    ['4'] ['5'] [' '] ['1', '2', '0'] (" stars".data)
    (by decide) (by decide) (by decide) (by decide) (by decide) (by decide)
    (by decide) (by decide) (by decide) (by decide)

end SortVegan
